import Mathlib

/-!
Verification development for the route-based RPC client in
`src/http/client.go` (package `http` of the helm-operator repository).

The client's control flow is embedded shallowly:

* External collaborators (the route resolver `makeURL`, the JSON codec of
  the standard library, `http.NewRequest` URL validation, the transport
  `c.client.Do`) are parameters gathered in a `ClientEnv` record, exactly
  at the interfaces the Go code consumes them.
* Side effects that the code performs on a call (attaching the credential
  with `token.Set`, handing a request to the transport, closing the
  response body, attempting a JSON decode of a response body) are recorded
  as an explicit `Event` trace so that temporal and resource claims are
  statable.
* Go's two-value returns `(resp, err)` and error wrapping with
  `errors.Wrap(err, ctx)` are modelled literally (`Option Response ×
  Option GoError`, and a `GoError.wrap` constructor), so that error-shape
  claims are about the code and not about an Except-monad idealisation.
-/

namespace HelmOperator

/-- An outgoing HTTP request (Go `*http.Request`), as the client builds it:
method, URL string, payload bytes (as a string) and, for instrumentation,
how many times the credential has been attached via `token.Set`. -/
structure Request where
  method : String
  url : String
  payload : String
  tokenCount : Nat
deriving DecidableEq, Repr

/-- A received HTTP response (Go `*http.Response`): status code, status
text, the bytes that reading the body yields, and an optional read error
reported after those bytes (Go `io.Reader` semantics: `ReadAll` returns
the data read so far together with the error). -/
structure Response where
  statusCode : Nat
  status : String
  body : String
  readErr : Option String
deriving DecidableEq, Repr

/-- Go error values as the client produces them: a base error message, the
structured `httperror.APIError{StatusCode, Status, Body}`, or a wrapped
error `errors.Wrap(cause, ctx)`. -/
inductive GoError where
  | base (msg : String)
  | apiErr (statusCode : Nat) (status : String) (body : String)
  | wrap (ctx : String) (cause : GoError)
deriving DecidableEq, Repr

/-- Observable side effects of one client call, in order: credential
attachment (`c.token.Set(req)`), handing a request to the transport
(`c.client.Do`), closing the response body (`resp.Body.Close()`), and
attempting a JSON decode of a response body into the caller's
destination. -/
inductive Event where
  | tokenSet
  | send (req : Request)
  | closeBody
  | decodeAttempt (input : String)
deriving DecidableEq, Repr

/-- Go `unicode.IsSpace` on the Latin-1 range, which is what
`strings.TrimSpace` strips: tab, newline, vertical tab, form feed,
carriage return, space, NEL and NBSP. -/
def goIsSpace (c : Char) : Bool :=
  c.toNat = 9 || c.toNat = 10 || c.toNat = 11 || c.toNat = 12 ||
  c.toNat = 13 || c.toNat = 32 || c.toNat = 133 || c.toNat = 160

/-- Go `strings.TrimSpace`: drop leading and trailing whitespace. -/
def trimSpace (s : String) : String :=
  String.mk (((s.data.dropWhile goIsSpace).reverse.dropWhile goIsSpace).reverse)

/-- The external collaborators of the client, at the exact interfaces
`client.go` consumes them.  `α` is the type of the caller's destination
value (the client receives a destination as `interface\x7b\x7d`; `none`
models Go's `nil` destination), `β` the type of request-body values.

* `makeURL` — the route resolver (`makeURL(c.endpoint, c.router, route,
  queryParams...)`, defined outside `src/`): route name and flat
  query-parameter list to URL, or an error.
* `marshal` — `json.Marshal` on request bodies.
* `newRequestErr` — the failure behaviour of `http.NewRequest(method, url,
  body)`: `none` means the request is built.
* `transport` — `c.client.Do`: a transport failure or a response.
* `unmarshal` — `json.Unmarshal(bytes, &dest)`: bytes and current
  destination to updated destination, or a decode error.
* `decodeStream` — `json.NewDecoder(body).Decode(dest)` as used by `get`:
  body bytes, the body's read error if any, and the destination. -/
structure ClientEnv (α β : Type) where
  makeURL : String → List String → Except String String
  marshal : β → Except String String
  newRequestErr : String → String → Option String
  transport : Request → Except String Response
  unmarshal : String → Option α → Except String (Option α)
  decodeStream : String → Option String → Option α → Except String (Option α)

variable {α β : Type}

/-- `executeRequest` (client.go:187-204).  Sends the request; propagates a
transport failure wrapped with "executing HTTP request"; on status 200
returns the response; on any other status does a best-effort read of the
body (the read error is discarded: `buf, _ := ioutil.ReadAll`), trims
whitespace and returns an `APIError`.  Mirrors Go's two-value return. -/
def executeRequest (env : ClientEnv α β) (req : Request) :
    List Event × Option Response × Option GoError :=
  match env.transport req with
  | .error e => ([.send req], none, some (.wrap "executing HTTP request" (.base e)))
  | .ok resp =>
    if resp.statusCode = 200 then
      ([.send req], some resp, none)
    else
      ([.send req], none,
        some (.apiErr resp.statusCode resp.status (trimSpace resp.body)))

/-- The body-bytes computation of `postWithResp` (client.go:129-135):
`var bodyBytes []byte; if body != nil` then `json.Marshal` it. -/
def marshalBody (env : ClientEnv α β) : Option β → Except String String
  | none => .ok ""
  | some b => env.marshal b

/-- `postWithResp` (client.go:123-160).  Resolve the URL, optionally
marshal the body, build a POST request, attach the credential, execute,
then read the whole response body; an empty body is success without
touching the destination, a non-empty body is unmarshalled into it.  The
trace records credential attachment, the send, decode attempts and the
deferred `resp.Body.Close()` (which runs at return, hence last). -/
def postWithResp (env : ClientEnv α β) (dest : Option α) (route : String)
    (body : Option β) (queryParams : List String) :
    List Event × Option α × Option GoError :=
  match env.makeURL route queryParams with
  | .error e => ([], dest, some (.wrap "constructing URL" (.base e)))
  | .ok u =>
    match marshalBody env body with
    | .error e => ([], dest, some (.wrap "encoding request body" (.base e)))
    | .ok bodyBytes =>
      match env.newRequestErr "POST" u with
      | some e => ([], dest, some (.wrap ("constructing request " ++ u) (.base e)))
      | none =>
        let req : Request := { method := "POST", url := u, payload := bodyBytes, tokenCount := 0 }
        let req' : Request := { req with tokenCount := req.tokenCount + 1 }
        match executeRequest env req' with
        | (ev, _, some e) =>
          (.tokenSet :: ev, dest, some (.wrap "executing HTTP request" e))
        | (ev, some resp, none) =>
          match resp.readErr with
          | some e =>
            (.tokenSet :: ev ++ [.closeBody], dest,
              some (.wrap "decoding response from server" (.base e)))
          | none =>
            if resp.body.length ≤ 0 then
              (.tokenSet :: ev ++ [.closeBody], dest, none)
            else
              match env.unmarshal resp.body dest with
              | .error e =>
                (.tokenSet :: ev ++ [.decodeAttempt resp.body, .closeBody], dest,
                  some (.wrap "decoding response from server" (.base e)))
              | .ok d =>
                (.tokenSet :: ev ++ [.decodeAttempt resp.body, .closeBody], d, none)
        | (ev, none, none) => (.tokenSet :: ev, dest, some (.base "nil response"))

/-- `postWithBody` (client.go:116-118): delegates to `postWithResp` with a
nil destination. -/
def postWithBody (env : ClientEnv α β) (route : String) (body : Option β)
    (queryParams : List String) : List Event × Option α × Option GoError :=
  postWithResp env none route body queryParams

/-- `post` (client.go:110-112): delegates to `postWithBody` with no body. -/
def post (env : ClientEnv α β) (route : String) (queryParams : List String) :
    List Event × Option α × Option GoError :=
  postWithBody env route none queryParams

/-- `get` (client.go:163-185).  Resolve the URL, build a GET request with
no payload, attach the credential, execute, then unconditionally decode
the response body stream into the destination. -/
def get (env : ClientEnv α β) (dest : Option α) (route : String)
    (queryParams : List String) : List Event × Option α × Option GoError :=
  match env.makeURL route queryParams with
  | .error e => ([], dest, some (.wrap "constructing URL" (.base e)))
  | .ok u =>
    match env.newRequestErr "GET" u with
    | some e => ([], dest, some (.wrap ("constructing request " ++ u) (.base e)))
    | none =>
      let req : Request := { method := "GET", url := u, payload := "", tokenCount := 0 }
      let req' : Request := { req with tokenCount := req.tokenCount + 1 }
      match executeRequest env req' with
      | (ev, _, some e) =>
        (.tokenSet :: ev, dest, some (.wrap "executing HTTP request" e))
      | (ev, some resp, none) =>
        match env.decodeStream resp.body resp.readErr dest with
        | .error e =>
          (.tokenSet :: ev ++ [.decodeAttempt resp.body, .closeBody], dest,
            some (.wrap "decoding response from server" (.base e)))
        | .ok d =>
          (.tokenSet :: ev ++ [.decodeAttempt resp.body, .closeBody], d, none)
      | (ev, none, none) => (.tokenSet :: ev, dest, some (.base "nil response"))

/-- The release-job parameters `jobs.ReleaseJobParams` as `PostRelease`
reads them: an image spec, a release kind, service specs and excludes. -/
structure ReleaseJobParams where
  imageSpec : String
  kind : String
  serviceSpecs : List String
  excludes : List String
deriving DecidableEq, Repr

/-- The query-argument list built by `PostRelease` (client.go:48-54):
start from image and kind, then append a ("service", spec) pair per
service spec and an ("exclude", ex) pair per exclude. -/
def postReleaseArgs (s : ReleaseJobParams) : List String :=
  let args := ["image", s.imageSpec, "kind", s.kind]
  let args := s.serviceSpecs.foldl (fun a spec => a ++ ["service", spec]) args
  s.excludes.foldl (fun a ex => a ++ ["exclude", ex]) args

/-- `PostRelease` (client.go:47-59): posts the built argument list to the
"PostRelease" route with no body and a fresh destination value `resp0`
(Go `var resp postReleaseResponse`). -/
def PostRelease (env : ClientEnv α β) (resp0 : α) (s : ReleaseJobParams) :
    List Event × Option α × Option GoError :=
  postWithResp env (some resp0) "PostRelease" none (postReleaseArgs s)

/-- Read a flat key/value argument list as ordered pairs, the way the
route resolver consumes it. -/
def toPairs : List String → List (String × String)
  | k :: v :: rest => (k, v) :: toPairs rest
  | _ => []

/-- Does a trace contain a decode attempt? -/
def hasDecode (tr : List Event) : Bool :=
  tr.any fun e => match e with | .decodeAttempt _ => true | _ => false

/-- Number of credential attachments in a trace. -/
def countTok : List Event → Nat
  | [] => 0
  | .tokenSet :: tr => countTok tr + 1
  | _ :: tr => countTok tr

/-- The POST request `postWithResp` hands to the transport after
credential attachment: resolved URL, marshalled payload, token set once. -/
def postReq (u bodyBytes : String) : Request :=
  { method := "POST", url := u, payload := bodyBytes, tokenCount := 1 }

/-- The GET request `get` hands to the transport after credential
attachment: resolved URL, empty payload, token set once. -/
def getReq (u : String) : Request :=
  { method := "GET", url := u, payload := "", tokenCount := 1 }

/-! ### Path lemmas

One lemma per terminal control-flow path of `postWithResp` and `get`,
each characterising the full result (trace, destination, error) from the
collaborator outcomes that select the path. -/

lemma str_len_le_zero {s : String} : s.length ≤ 0 ↔ s = "" := by
  cases s with
  | mk l =>
    cases l with
    | nil => simp
    | cons c cs =>
      simp only [String.length]
      constructor
      · intro h; exact absurd h (by simp)
      · intro h; exact absurd h (by simp [String.ext_iff])

lemma postWithResp_url_err (env : ClientEnv α β) (dest : Option α) (route : String)
    (bdy : Option β) (qp : List String) (e : String)
    (hu : env.makeURL route qp = .error e) :
    postWithResp env dest route bdy qp
      = ([], dest, some (.wrap "constructing URL" (.base e))) := by
  simp [postWithResp, hu]

lemma get_url_err (env : ClientEnv α β) (dest : Option α) (route : String)
    (qp : List String) (e : String)
    (hu : env.makeURL route qp = .error e) :
    get env dest route qp
      = ([], dest, some (.wrap "constructing URL" (.base e))) := by
  simp [get, hu]

lemma postWithResp_marshal_err (env : ClientEnv α β) (dest : Option α) (route : String)
    (bdy : Option β) (qp : List String) (u e : String)
    (hu : env.makeURL route qp = .ok u) (hmb : marshalBody env bdy = .error e) :
    postWithResp env dest route bdy qp
      = ([], dest, some (.wrap "encoding request body" (.base e))) := by
  simp [postWithResp, hu, hmb]

lemma postWithResp_transport_err (env : ClientEnv α β) (dest : Option α) (route : String)
    (bdy : Option β) (qp : List String) (u bb e : String)
    (hu : env.makeURL route qp = .ok u) (hmb : marshalBody env bdy = .ok bb)
    (hreq : env.newRequestErr "POST" u = none)
    (ht : env.transport (postReq u bb) = .error e) :
    postWithResp env dest route bdy qp
      = ([.tokenSet, .send (postReq u bb)], dest,
         some (.wrap "executing HTTP request"
           (.wrap "executing HTTP request" (.base e)))) := by
  simp [postWithResp, hu, hmb, hreq, executeRequest, postReq] at ht ⊢
  simp [ht]

lemma postWithResp_api_err (env : ClientEnv α β) (dest : Option α) (route : String)
    (bdy : Option β) (qp : List String) (u bb : String) (r : Response)
    (hu : env.makeURL route qp = .ok u) (hmb : marshalBody env bdy = .ok bb)
    (hreq : env.newRequestErr "POST" u = none)
    (ht : env.transport (postReq u bb) = .ok r) (hst : r.statusCode ≠ 200) :
    postWithResp env dest route bdy qp
      = ([.tokenSet, .send (postReq u bb)], dest,
         some (.wrap "executing HTTP request"
           (.apiErr r.statusCode r.status (trimSpace r.body)))) := by
  simp [postWithResp, hu, hmb, hreq, executeRequest, postReq] at ht ⊢
  simp [ht, hst]

lemma postWithResp_read_err (env : ClientEnv α β) (dest : Option α) (route : String)
    (bdy : Option β) (qp : List String) (u bb e : String) (r : Response)
    (hu : env.makeURL route qp = .ok u) (hmb : marshalBody env bdy = .ok bb)
    (hreq : env.newRequestErr "POST" u = none)
    (ht : env.transport (postReq u bb) = .ok r) (hst : r.statusCode = 200)
    (hre : r.readErr = some e) :
    postWithResp env dest route bdy qp
      = ([.tokenSet, .send (postReq u bb), .closeBody], dest,
         some (.wrap "decoding response from server" (.base e))) := by
  simp [postWithResp, hu, hmb, hreq, executeRequest, postReq] at ht ⊢
  simp [ht, hst, hre]

lemma postWithResp_200_empty (env : ClientEnv α β) (dest : Option α) (route : String)
    (bdy : Option β) (qp : List String) (u bb : String) (r : Response)
    (hu : env.makeURL route qp = .ok u) (hmb : marshalBody env bdy = .ok bb)
    (hreq : env.newRequestErr "POST" u = none)
    (ht : env.transport (postReq u bb) = .ok r) (hst : r.statusCode = 200)
    (hre : r.readErr = none) (hb : r.body = "") :
    postWithResp env dest route bdy qp
      = ([.tokenSet, .send (postReq u bb), .closeBody], dest, none) := by
  simp [postWithResp, hu, hmb, hreq, executeRequest, postReq] at ht ⊢
  simp [ht, hst, hre, hb]

lemma postWithResp_decode_err (env : ClientEnv α β) (dest : Option α) (route : String)
    (bdy : Option β) (qp : List String) (u bb e : String) (r : Response)
    (hu : env.makeURL route qp = .ok u) (hmb : marshalBody env bdy = .ok bb)
    (hreq : env.newRequestErr "POST" u = none)
    (ht : env.transport (postReq u bb) = .ok r) (hst : r.statusCode = 200)
    (hre : r.readErr = none) (hb : r.body ≠ "")
    (hun : env.unmarshal r.body dest = .error e) :
    postWithResp env dest route bdy qp
      = ([.tokenSet, .send (postReq u bb), .decodeAttempt r.body, .closeBody], dest,
         some (.wrap "decoding response from server" (.base e))) := by
  have hlen : ¬ r.body.length = 0 := fun h => hb (str_len_le_zero.mp (Nat.le_of_eq h))
  simp [postWithResp, hu, hmb, hreq, executeRequest, postReq] at ht ⊢
  simp [ht, hst, hre, hlen, hun]

lemma postWithResp_200_decode_ok (env : ClientEnv α β) (dest : Option α) (route : String)
    (bdy : Option β) (qp : List String) (u bb : String) (r : Response) (d : Option α)
    (hu : env.makeURL route qp = .ok u) (hmb : marshalBody env bdy = .ok bb)
    (hreq : env.newRequestErr "POST" u = none)
    (ht : env.transport (postReq u bb) = .ok r) (hst : r.statusCode = 200)
    (hre : r.readErr = none) (hb : r.body ≠ "")
    (hun : env.unmarshal r.body dest = .ok d) :
    postWithResp env dest route bdy qp
      = ([.tokenSet, .send (postReq u bb), .decodeAttempt r.body, .closeBody], d, none) := by
  have hlen : ¬ r.body.length = 0 := fun h => hb (str_len_le_zero.mp (Nat.le_of_eq h))
  simp [postWithResp, hu, hmb, hreq, executeRequest, postReq] at ht ⊢
  simp [ht, hst, hre, hlen, hun]

lemma get_req_err (env : ClientEnv α β) (dest : Option α) (route : String)
    (qp : List String) (u e : String)
    (hu : env.makeURL route qp = .ok u) (hreq : env.newRequestErr "GET" u = some e) :
    get env dest route qp
      = ([], dest, some (.wrap ("constructing request " ++ u) (.base e))) := by
  simp [get, hu, hreq]

lemma get_transport_err (env : ClientEnv α β) (dest : Option α) (route : String)
    (qp : List String) (u e : String)
    (hu : env.makeURL route qp = .ok u) (hreq : env.newRequestErr "GET" u = none)
    (ht : env.transport (getReq u) = .error e) :
    get env dest route qp
      = ([.tokenSet, .send (getReq u)], dest,
         some (.wrap "executing HTTP request"
           (.wrap "executing HTTP request" (.base e)))) := by
  simp [get, hu, hreq, executeRequest, getReq] at ht ⊢
  simp [ht]

lemma get_api_err (env : ClientEnv α β) (dest : Option α) (route : String)
    (qp : List String) (u : String) (r : Response)
    (hu : env.makeURL route qp = .ok u) (hreq : env.newRequestErr "GET" u = none)
    (ht : env.transport (getReq u) = .ok r) (hst : r.statusCode ≠ 200) :
    get env dest route qp
      = ([.tokenSet, .send (getReq u)], dest,
         some (.wrap "executing HTTP request"
           (.apiErr r.statusCode r.status (trimSpace r.body)))) := by
  simp [get, hu, hreq, executeRequest, getReq] at ht ⊢
  simp [ht, hst]

lemma get_decode_err (env : ClientEnv α β) (dest : Option α) (route : String)
    (qp : List String) (u e : String) (r : Response)
    (hu : env.makeURL route qp = .ok u) (hreq : env.newRequestErr "GET" u = none)
    (ht : env.transport (getReq u) = .ok r) (hst : r.statusCode = 200)
    (hdec : env.decodeStream r.body r.readErr dest = .error e) :
    get env dest route qp
      = ([.tokenSet, .send (getReq u), .decodeAttempt r.body, .closeBody], dest,
         some (.wrap "decoding response from server" (.base e))) := by
  simp [get, hu, hreq, executeRequest, getReq] at ht ⊢
  simp [ht, hst, hdec]

lemma get_decode_ok (env : ClientEnv α β) (dest : Option α) (route : String)
    (qp : List String) (u : String) (r : Response) (d : Option α)
    (hu : env.makeURL route qp = .ok u) (hreq : env.newRequestErr "GET" u = none)
    (ht : env.transport (getReq u) = .ok r) (hst : r.statusCode = 200)
    (hdec : env.decodeStream r.body r.readErr dest = .ok d) :
    get env dest route qp
      = ([.tokenSet, .send (getReq u), .decodeAttempt r.body, .closeBody], d, none) := by
  simp [get, hu, hreq, executeRequest, getReq] at ht ⊢
  simp [ht, hst, hdec]

lemma foldl_append_kv (key : String) (l init : List String) :
    l.foldl (fun a x => a ++ [key, x]) init = init ++ l.flatMap (fun x => [key, x]) := by
  induction l generalizing init with
  | nil => simp
  | cons x xs ih => simp [List.foldl, ih]

lemma toPairs_bind_kv (key : String) (l rest : List String) :
    toPairs (l.flatMap (fun x => [key, x]) ++ rest)
      = l.map (fun x => (key, x)) ++ toPairs rest := by
  induction l with
  | nil => simp
  | cons x xs ih =>
    rw [List.flatMap_cons, List.append_assoc]
    show (key, x) :: toPairs (xs.flatMap (fun x => [key, x]) ++ rest) = _
    rw [ih]
    rfl

/-! ### Witness environments

Concrete instantiations of the external collaborators, playing the role
of the test doubles the spec's testable properties describe. -/

/-- A collaborator instantiation that always produces the response `r`:
routes resolve under a fixed base endpoint, marshalling prints the body
value, request construction succeeds, unmarshalling fails exactly on the
input "oops", and stream decoding fails exactly on empty input. -/
def mkEnv (r : Response) : ClientEnv Nat Nat :=
  { makeURL := fun route _ => .ok ("http://cloud.example/api/flux/" ++ route)
    marshal := fun b => .ok (toString b)
    newRequestErr := fun _ _ => none
    transport := fun _ => .ok r
    unmarshal := fun s _ => if s = "oops" then .error "invalid character" else .ok (some 42)
    decodeStream := fun s _ _ => if s = "" then .error "EOF" else .ok (some 41) }

/-- A 200 response with a small JSON body. -/
def okResp : Response :=
  { statusCode := 200, status := "200 OK", body := "[]", readErr := none }

/-- A 200 response with an empty body. -/
def emptyResp : Response :=
  { statusCode := 200, status := "200 OK", body := "", readErr := none }

/-- A 404 response whose body carries surrounding whitespace. -/
def notFoundResp : Response :=
  { statusCode := 404, status := "404 Not Found", body := " boom\n", readErr := none }

/-- A collaborator instantiation whose route resolver fails. -/
def envBadURL : ClientEnv Nat Nat :=
  { mkEnv okResp with makeURL := fun _ _ => .error "route not found" }

/-! ### Claims -/

/-- C5: `post` and `postWithBody` are the same primitive as `postWithResp`
specialised with a discarded (nil) destination and, for `post`, an absent
body: `post(route, qp...) = postWithResp(nil, route, nil, qp...)` and
`postWithBody(route, body, qp...) = postWithResp(nil, route, body,
qp...)`. -/
theorem post_is_postWithResp_nil (env : ClientEnv α β) (route : String)
    (bdy : Option β) (qp : List String) :
    post env route qp = postWithResp env none route none qp ∧
    postWithBody env route bdy qp = postWithResp env none route bdy qp :=
  ⟨rfl, rfl⟩

/-- C7: when URL resolution fails, `get` and `postWithResp` return
immediately with the resolver error wrapped with "constructing URL"; the
empty trace shows that no credential is attached and nothing is handed to
the transport. -/
theorem url_error_short_circuits (env : ClientEnv α β) (dest : Option α)
    (route : String) (qp : List String) (e : String)
    (hu : env.makeURL route qp = .error e) :
    get env dest route qp = ([], dest, some (.wrap "constructing URL" (.base e))) ∧
    ∀ bdy : Option β, postWithResp env dest route bdy qp
      = ([], dest, some (.wrap "constructing URL" (.base e))) :=
  ⟨get_url_err env dest route qp e hu,
   fun bdy => postWithResp_url_err env dest route bdy qp e hu⟩

theorem url_error_short_circuits_witness :
    (get envBadURL none "Bogus" []
      = ([], none, some (.wrap "constructing URL" (.base "route not found")))) ∧
    (postWithResp envBadURL none "Bogus" (some 5) []
      = ([], none, some (.wrap "constructing URL" (.base "route not found")))) :=
  ⟨(url_error_short_circuits envBadURL none "Bogus" [] "route not found" rfl).1,
   (url_error_short_circuits envBadURL none "Bogus" [] "route not found" rfl).2 (some 5)⟩

/-- C8: `PostRelease` builds the flat query-argument list as ("image",
imageSpec), ("kind", kind), then one ("service", spec) pair per service
spec in input order, then one ("exclude", ex) pair per exclude in input
order — every duplicate key instance is its own pair, with no
deduplication, overwriting or joining — and passes exactly that list to
`postWithResp`. -/
theorem postRelease_args_pairs (s : ReleaseJobParams) :
    toPairs (postReleaseArgs s)
      = ("image", s.imageSpec) :: ("kind", s.kind) ::
        (s.serviceSpecs.map (fun spec => ("service", spec))
          ++ s.excludes.map (fun ex => ("exclude", ex))) ∧
    ∀ (env : ClientEnv α β) (r0 : α),
      PostRelease env r0 s
        = postWithResp env (some r0) "PostRelease" none (postReleaseArgs s) := by
  constructor
  · unfold postReleaseArgs
    rw [foldl_append_kv, foldl_append_kv, List.append_assoc]
    rw [show
      (["image", s.imageSpec, "kind", s.kind] : List String)
          ++ (s.serviceSpecs.flatMap (fun x => ["service", x])
              ++ s.excludes.flatMap (fun x => ["exclude", x]))
        = "image" :: s.imageSpec :: "kind" :: s.kind ::
            (s.serviceSpecs.flatMap (fun x => ["service", x])
              ++ s.excludes.flatMap (fun x => ["exclude", x])) from rfl]
    rw [show toPairs ("image" :: s.imageSpec :: "kind" :: s.kind ::
          (s.serviceSpecs.flatMap (fun x => ["service", x])
            ++ s.excludes.flatMap (fun x => ["exclude", x])))
        = ("image", s.imageSpec) :: ("kind", s.kind) ::
            toPairs (s.serviceSpecs.flatMap (fun x => ["service", x])
              ++ s.excludes.flatMap (fun x => ["exclude", x])) from rfl]
    rw [toPairs_bind_kv]
    rw [← List.append_nil (s.excludes.flatMap (fun x => ["exclude", x])),
      toPairs_bind_kv]
    simp [toPairs]
  · intro env r0; rfl

/-- C9: `executeRequest` never returns both a response and an error: a
non-nil error comes with a nil response, and a non-nil response comes
with a nil error and a status code of exactly 200. -/
theorem executeRequest_exclusive (env : ClientEnv α β) (req : Request) :
    ((executeRequest env req).2.2.isSome → (executeRequest env req).2.1 = none) ∧
    (∀ r, (executeRequest env req).2.1 = some r →
      (executeRequest env req).2.2 = none ∧ r.statusCode = 200) := by
  rcases h : env.transport req with e | resp
  · simp [executeRequest, h]
  · by_cases hs : resp.statusCode = 200
    · constructor
      · simp [executeRequest, h, hs]
      · rintro r hr
        have hresp : resp = r := by simpa [executeRequest, h, hs] using hr
        subst hresp
        exact ⟨by simp [executeRequest, h, hs], hs⟩
    · simp [executeRequest, h, hs]

theorem executeRequest_exclusive_witness :
    (executeRequest (mkEnv okResp)
        { method := "GET", url := "http://u", payload := "", tokenCount := 1 }).2.2 = none ∧
    okResp.statusCode = 200 :=
  (executeRequest_exclusive (mkEnv okResp)
    { method := "GET", url := "http://u", payload := "", tokenCount := 1 }).2 okResp rfl

/-- A 200 response whose body is not valid JSON for the witness codec. -/
def oopsResp : Response :=
  { statusCode := 200, status := "200 OK", body := "oops", readErr := none }

/-- C1: every response obtained by `executeRequest` with status exactly
200 is returned to the caller; any other status fails with an APIError
whose statusCode is the response's status code and whose body is the
response body trimmed of whitespace; and on that path the calling
primitives (`get`, `postWithResp`) never attempt a JSON decode of the
body into the caller's destination. -/
theorem executeRequest_status_classification (env : ClientEnv α β) (r : Response) :
    (∀ req, env.transport req = .ok r → r.statusCode = 200 →
      executeRequest env req = ([.send req], some r, none)) ∧
    (∀ req, env.transport req = .ok r → r.statusCode ≠ 200 →
      executeRequest env req
        = ([.send req], none,
           some (.apiErr r.statusCode r.status (trimSpace r.body)))) ∧
    (∀ (dest : Option α) route qp u, env.makeURL route qp = .ok u →
      env.newRequestErr "GET" u = none → env.transport (getReq u) = .ok r →
      r.statusCode ≠ 200 →
      get env dest route qp
        = ([.tokenSet, .send (getReq u)], dest,
           some (.wrap "executing HTTP request"
             (.apiErr r.statusCode r.status (trimSpace r.body)))) ∧
      hasDecode (get env dest route qp).1 = false) ∧
    (∀ (dest : Option α) route (bdy : Option β) qp u bb,
      env.makeURL route qp = .ok u → marshalBody env bdy = .ok bb →
      env.newRequestErr "POST" u = none → env.transport (postReq u bb) = .ok r →
      r.statusCode ≠ 200 →
      postWithResp env dest route bdy qp
        = ([.tokenSet, .send (postReq u bb)], dest,
           some (.wrap "executing HTTP request"
             (.apiErr r.statusCode r.status (trimSpace r.body)))) ∧
      hasDecode (postWithResp env dest route bdy qp).1 = false) := by
  refine ⟨?_, ?_, ?_, ?_⟩
  · intro req ht h200
    simp [executeRequest, ht, h200]
  · intro req ht hst
    simp [executeRequest, ht, hst]
  · intro dest route qp u hu hreq ht hst
    have h := get_api_err env dest route qp u r hu hreq ht hst
    exact ⟨h, by rw [h]; simp [hasDecode]⟩
  · intro dest route bdy qp u bb hu hmb hreq ht hst
    have h := postWithResp_api_err env dest route bdy qp u bb r hu hmb hreq ht hst
    exact ⟨h, by rw [h]; simp [hasDecode]⟩

theorem executeRequest_status_classification_witness :
    (executeRequest (mkEnv notFoundResp) (getReq "http://u")
      = ([.send (getReq "http://u")], none,
         some (.apiErr notFoundResp.statusCode notFoundResp.status
           (trimSpace notFoundResp.body)))) ∧
    (get (mkEnv notFoundResp) none "ListServices" ["namespace", "default"]
      = ([.tokenSet, .send (getReq "http://cloud.example/api/flux/ListServices")], none,
         some (.wrap "executing HTTP request"
           (.apiErr notFoundResp.statusCode notFoundResp.status
             (trimSpace notFoundResp.body)))) ∧
     hasDecode (get (mkEnv notFoundResp) none "ListServices" ["namespace", "default"]).1
       = false) ∧
    (executeRequest (mkEnv okResp) (getReq "http://u")
      = ([.send (getReq "http://u")], some okResp, none)) :=
  ⟨(executeRequest_status_classification (mkEnv notFoundResp) notFoundResp).2.1
      (getReq "http://u") rfl (by decide),
   (executeRequest_status_classification (mkEnv notFoundResp) notFoundResp).2.2.1
      none "ListServices" ["namespace", "default"]
      "http://cloud.example/api/flux/ListServices" rfl rfl rfl (by decide),
   (executeRequest_status_classification (mkEnv okResp) okResp).1
      (getReq "http://u") rfl rfl⟩

/-- C2: for a 200 response with an empty body, `get` fails with the
decode error (the decode is attempted unconditionally, and decoding an
empty input as JSON fails) while `postWithResp` succeeds and returns the
destination unchanged; for a non-empty 200 body, `postWithResp`
unmarshals it into the destination and fails with the decode error when
unmarshalling fails. -/
theorem get_post_empty_body_asymmetry (env : ClientEnv α β) (dest : Option α)
    (route : String) (qp : List String) (u : String) (r : Response)
    (hst : r.statusCode = 200) (hre : r.readErr = none) :
    (∀ e, env.makeURL route qp = .ok u → env.newRequestErr "GET" u = none →
      env.transport (getReq u) = .ok r → r.body = "" →
      env.decodeStream "" none dest = .error e →
      get env dest route qp
        = ([.tokenSet, .send (getReq u), .decodeAttempt "", .closeBody], dest,
           some (.wrap "decoding response from server" (.base e)))) ∧
    (∀ (bdy : Option β) bb, env.makeURL route qp = .ok u →
      marshalBody env bdy = .ok bb → env.newRequestErr "POST" u = none →
      env.transport (postReq u bb) = .ok r → r.body = "" →
      postWithResp env dest route bdy qp
        = ([.tokenSet, .send (postReq u bb), .closeBody], dest, none)) ∧
    (∀ (bdy : Option β) bb e, env.makeURL route qp = .ok u →
      marshalBody env bdy = .ok bb → env.newRequestErr "POST" u = none →
      env.transport (postReq u bb) = .ok r → r.body ≠ "" →
      env.unmarshal r.body dest = .error e →
      postWithResp env dest route bdy qp
        = ([.tokenSet, .send (postReq u bb), .decodeAttempt r.body, .closeBody], dest,
           some (.wrap "decoding response from server" (.base e)))) ∧
    (∀ (bdy : Option β) bb d, env.makeURL route qp = .ok u →
      marshalBody env bdy = .ok bb → env.newRequestErr "POST" u = none →
      env.transport (postReq u bb) = .ok r → r.body ≠ "" →
      env.unmarshal r.body dest = .ok d →
      postWithResp env dest route bdy qp
        = ([.tokenSet, .send (postReq u bb), .decodeAttempt r.body, .closeBody],
           d, none)) := by
  refine ⟨?_, ?_, ?_, ?_⟩
  · intro e hu hreq ht hb hdec
    have hdec' : env.decodeStream r.body r.readErr dest = .error e := by
      rw [hb, hre]; exact hdec
    have h := get_decode_err env dest route qp u e r hu hreq ht hst hdec'
    rw [hb] at h
    exact h
  · intro bdy bb hu hmb hreq ht hb
    exact postWithResp_200_empty env dest route bdy qp u bb r hu hmb hreq ht hst hre hb
  · intro bdy bb e hu hmb hreq ht hb hun
    exact postWithResp_decode_err env dest route bdy qp u bb e r hu hmb hreq ht hst hre hb hun
  · intro bdy bb d hu hmb hreq ht hb hun
    exact postWithResp_200_decode_ok env dest route bdy qp u bb r d hu hmb hreq ht hst hre hb hun

theorem get_post_empty_body_asymmetry_witness :
    (get (mkEnv emptyResp) (some 7) "Status" []
      = ([.tokenSet, .send (getReq "http://cloud.example/api/flux/Status"),
          .decodeAttempt "", .closeBody], some 7,
         some (.wrap "decoding response from server" (.base "EOF")))) ∧
    (postWithResp (mkEnv emptyResp) (some 7) "Automate"
        (none : Option Nat) ["service", "a"]
      = ([.tokenSet,
          .send (postReq "http://cloud.example/api/flux/Automate" ""), .closeBody],
         some 7, none)) ∧
    (postWithResp (mkEnv oopsResp) (some 7) "PostRelease" (none : Option Nat)
        ["image", "img"]
      = ([.tokenSet,
          .send (postReq "http://cloud.example/api/flux/PostRelease" ""),
          .decodeAttempt "oops", .closeBody], some 7,
         some (.wrap "decoding response from server" (.base "invalid character")))) ∧
    (postWithResp (mkEnv okResp) (some 7) "PostRelease" (none : Option Nat)
        ["image", "img"]
      = ([.tokenSet,
          .send (postReq "http://cloud.example/api/flux/PostRelease" ""),
          .decodeAttempt "[]", .closeBody], some 42, none)) :=
  ⟨(get_post_empty_body_asymmetry (mkEnv emptyResp) (some 7) "Status" []
      "http://cloud.example/api/flux/Status" emptyResp rfl rfl).1
      "EOF" rfl rfl rfl rfl rfl,
   (get_post_empty_body_asymmetry (mkEnv emptyResp) (some 7) "Automate"
      ["service", "a"] "http://cloud.example/api/flux/Automate" emptyResp rfl rfl).2.1
      none "" rfl rfl rfl rfl rfl,
   (get_post_empty_body_asymmetry (mkEnv oopsResp) (some 7) "PostRelease"
      ["image", "img"] "http://cloud.example/api/flux/PostRelease" oopsResp rfl rfl).2.2.1
      none "" "invalid character" rfl rfl rfl rfl (by decide) rfl,
   (get_post_empty_body_asymmetry (mkEnv okResp) (some 7) "PostRelease"
      ["image", "img"] "http://cloud.example/api/flux/PostRelease" okResp rfl rfl).2.2.2
      none "" (some 42) rfl rfl rfl rfl (by decide) rfl⟩

lemma postWithResp_req_err (env : ClientEnv α β) (dest : Option α) (route : String)
    (bdy : Option β) (qp : List String) (u bb e : String)
    (hu : env.makeURL route qp = .ok u) (hmb : marshalBody env bdy = .ok bb)
    (hreq : env.newRequestErr "POST" u = some e) :
    postWithResp env dest route bdy qp
      = ([], dest, some (.wrap ("constructing request " ++ u) (.base e))) := by
  simp [postWithResp, hu, hmb, hreq]

/-- Once `postWithResp` reaches the execution step, its trace is the
credential attachment, then the send of the built POST request, then a
tail holding no further credential attachment. -/
lemma postWithResp_trace_shape (env : ClientEnv α β) (dest : Option α) (route : String)
    (bdy : Option β) (qp : List String) (u bb : String)
    (hu : env.makeURL route qp = .ok u) (hmb : marshalBody env bdy = .ok bb)
    (hreq : env.newRequestErr "POST" u = none) :
    ∃ tail, (postWithResp env dest route bdy qp).1
        = .tokenSet :: .send (postReq u bb) :: tail ∧ countTok tail = 0 := by
  rcases ht : env.transport (postReq u bb) with e | r
  · exact ⟨[],
      by rw [postWithResp_transport_err env dest route bdy qp u bb e hu hmb hreq ht], rfl⟩
  · by_cases hst : r.statusCode = 200
    · rcases hre : r.readErr with _ | e
      · by_cases hb : r.body = ""
        · exact ⟨[.closeBody],
            by rw [postWithResp_200_empty env dest route bdy qp u bb r hu hmb hreq ht hst hre hb],
            rfl⟩
        · rcases hun : env.unmarshal r.body dest with e | d
          · exact ⟨[.decodeAttempt r.body, .closeBody],
              by rw [postWithResp_decode_err env dest route bdy qp u bb e r
                hu hmb hreq ht hst hre hb hun], rfl⟩
          · exact ⟨[.decodeAttempt r.body, .closeBody],
              by rw [postWithResp_200_decode_ok env dest route bdy qp u bb r d
                hu hmb hreq ht hst hre hb hun], rfl⟩
      · exact ⟨[.closeBody],
          by rw [postWithResp_read_err env dest route bdy qp u bb e r hu hmb hreq ht hst hre],
          rfl⟩
    · exact ⟨[],
        by rw [postWithResp_api_err env dest route bdy qp u bb r hu hmb hreq ht hst], rfl⟩

/-- Once `get` reaches the execution step, its trace is the credential
attachment, then the send of the built GET request, then a tail holding
no further credential attachment. -/
lemma get_trace_shape (env : ClientEnv α β) (dest : Option α) (route : String)
    (qp : List String) (u : String)
    (hu : env.makeURL route qp = .ok u) (hreq : env.newRequestErr "GET" u = none) :
    ∃ tail, (get env dest route qp).1
        = .tokenSet :: .send (getReq u) :: tail ∧ countTok tail = 0 := by
  rcases ht : env.transport (getReq u) with e | r
  · exact ⟨[], by rw [get_transport_err env dest route qp u e hu hreq ht], rfl⟩
  · by_cases hst : r.statusCode = 200
    · rcases hdec : env.decodeStream r.body r.readErr dest with e | d
      · exact ⟨[.decodeAttempt r.body, .closeBody],
          by rw [get_decode_err env dest route qp u e r hu hreq ht hst hdec], rfl⟩
      · exact ⟨[.decodeAttempt r.body, .closeBody],
          by rw [get_decode_ok env dest route qp u r d hu hreq ht hst hdec], rfl⟩
    · exact ⟨[], by rw [get_api_err env dest route qp u r hu hreq ht hst], rfl⟩

/-- C6: on every call to `get` or `postWithResp` that reaches the
execution step, the credential attachment `token.Set` happens exactly
once in the whole trace, before the request is handed to the transport,
and the sent request carries exactly one attachment. -/
theorem token_set_once_before_send (env : ClientEnv α β) :
    (∀ (dest : Option α) route qp u, env.makeURL route qp = .ok u →
      env.newRequestErr "GET" u = none →
      ∃ rest, (get env dest route qp).1 = .tokenSet :: .send (getReq u) :: rest ∧
        (getReq u).tokenCount = 1 ∧ countTok (get env dest route qp).1 = 1) ∧
    (∀ (dest : Option α) route (bdy : Option β) qp u bb,
      env.makeURL route qp = .ok u → marshalBody env bdy = .ok bb →
      env.newRequestErr "POST" u = none →
      ∃ rest, (postWithResp env dest route bdy qp).1
          = .tokenSet :: .send (postReq u bb) :: rest ∧
        (postReq u bb).tokenCount = 1 ∧
        countTok (postWithResp env dest route bdy qp).1 = 1) := by
  constructor
  · intro dest route qp u hu hreq
    obtain ⟨tail, htr, hct⟩ := get_trace_shape env dest route qp u hu hreq
    exact ⟨tail, htr, rfl, by rw [htr]; simp [countTok, hct]⟩
  · intro dest route bdy qp u bb hu hmb hreq
    obtain ⟨tail, htr, hct⟩ := postWithResp_trace_shape env dest route bdy qp u bb hu hmb hreq
    exact ⟨tail, htr, rfl, by rw [htr]; simp [countTok, hct]⟩

theorem token_set_once_before_send_witness :
    (∃ rest, (get (mkEnv okResp) none "Status" []).1
        = .tokenSet :: .send (getReq "http://cloud.example/api/flux/Status") :: rest ∧
      (getReq "http://cloud.example/api/flux/Status").tokenCount = 1 ∧
      countTok (get (mkEnv okResp) none "Status" []).1 = 1) ∧
    (∃ rest, (postWithResp (mkEnv okResp) none "Automate" (none : Option Nat)
          ["service", "a"]).1
        = .tokenSet :: .send (postReq "http://cloud.example/api/flux/Automate" "") :: rest ∧
      (postReq "http://cloud.example/api/flux/Automate" "").tokenCount = 1 ∧
      countTok (postWithResp (mkEnv okResp) none "Automate" (none : Option Nat)
          ["service", "a"]).1 = 1) :=
  ⟨(token_set_once_before_send (mkEnv okResp)).1 none "Status" []
      "http://cloud.example/api/flux/Status" rfl rfl,
   (token_set_once_before_send (mkEnv okResp)).2 none "Automate" none
      ["service", "a"] "http://cloud.example/api/flux/Automate" "" rfl rfl rfl⟩

/-- C4: if a POST body value is supplied and its serialization fails, the
call fails immediately with the encode error and nothing happens (empty
trace: no request sent); if no body value is supplied, the result does
not depend on the serializer at all and every request the call sends
carries a zero-length payload. -/
theorem post_body_serialization (env : ClientEnv α β) :
    (∀ (dest : Option α) route qp u (b : β) e, env.makeURL route qp = .ok u →
      env.marshal b = .error e →
      postWithResp env dest route (some b) qp
        = ([], dest, some (.wrap "encoding request body" (.base e)))) ∧
    (∀ (dest : Option α) route qp (m₁ m₂ : β → Except String String),
      postWithResp { env with marshal := m₁ } dest route none qp
        = postWithResp { env with marshal := m₂ } dest route none qp) ∧
    (∀ (dest : Option α) route qp req,
      Event.send req ∈ (postWithResp env dest route none qp).1 →
      req.payload = "") := by
  refine ⟨?_, ?_, ?_⟩
  · intro dest route qp u b e hu hm
    exact postWithResp_marshal_err env dest route (some b) qp u e hu
      (by simp [marshalBody, hm])
  · intro dest route qp m₁ m₂
    rfl
  · intro dest route qp req hmem
    rcases hu : env.makeURL route qp with e | u
    · rw [postWithResp_url_err env dest route none qp e hu] at hmem
      simp at hmem
    · rcases hreq : env.newRequestErr "POST" u with _ | e
      · obtain ⟨tail, htr, -⟩ :=
          postWithResp_trace_shape env dest route none qp u "" hu rfl hreq
        rw [htr] at hmem
        have hsend : Event.send req = Event.send (postReq u "") ∨
            Event.send req ∈ tail := by
          rcases List.mem_cons.mp hmem with h | h
          · exact absurd h (by simp)
          · exact List.mem_cons.mp h
        rcases hsend with h | h
        · cases h
          rfl
        · exfalso
          -- the tail of the trace never holds a send event
          rcases ht : env.transport (postReq u "") with e | r
          · rw [postWithResp_transport_err env dest route none qp u "" e hu rfl hreq ht]
              at htr
            simp at htr
            subst htr
            simp at h
          · by_cases hst : r.statusCode = 200
            · rcases hre : r.readErr with _ | e
              · by_cases hb : r.body = ""
                · rw [postWithResp_200_empty env dest route none qp u "" r
                    hu rfl hreq ht hst hre hb] at htr
                  simp at htr
                  subst htr
                  simp at h
                · rcases hun : env.unmarshal r.body dest with e | d
                  · rw [postWithResp_decode_err env dest route none qp u "" e r
                      hu rfl hreq ht hst hre hb hun] at htr
                    simp at htr
                    subst htr
                    simp at h
                  · rw [postWithResp_200_decode_ok env dest route none qp u "" r d
                      hu rfl hreq ht hst hre hb hun] at htr
                    simp at htr
                    subst htr
                    simp at h
              · rw [postWithResp_read_err env dest route none qp u "" e r
                  hu rfl hreq ht hst hre] at htr
                simp at htr
                subst htr
                simp at h
            · rw [postWithResp_api_err env dest route none qp u "" r
                hu rfl hreq ht hst] at htr
              simp at htr
              subst htr
              simp at h
      · rw [postWithResp_req_err env dest route none qp u "" e hu rfl hreq] at hmem
        simp at hmem

theorem post_body_serialization_witness :
    postWithResp ({ mkEnv okResp with marshal := fun _ => .error "unsupported type" })
        (some 7) "SetConfig" (some 3) []
      = ([], some 7, some (.wrap "encoding request body" (.base "unsupported type"))) :=
  (post_body_serialization
      { mkEnv okResp with marshal := fun _ => .error "unsupported type" }).1
    (some 7) "SetConfig" [] "http://cloud.example/api/flux/SetConfig" 3
    "unsupported type" rfl rfl

/-- C3 (refuted by the code): the response body is NOT closed on the
non-200 exit path.  `executeRequest` reads the body of a non-200 response
without closing it and returns an error, and the caller returns before
its deferred close is installed.  At a concrete 404, the full trace of a
`get` call shows a received, read response and no `closeBody` event; the
success path of the same call shape does close. -/
theorem no_close_on_api_error_path :
    (get (mkEnv notFoundResp) none "ListServices" ["namespace", "default"]
      = ([.tokenSet, .send (getReq "http://cloud.example/api/flux/ListServices")], none,
         some (.wrap "executing HTTP request"
           (.apiErr 404 "404 Not Found" "boom")))) ∧
    Event.closeBody ∉
      (get (mkEnv notFoundResp) none "ListServices" ["namespace", "default"]).1 ∧
    Event.closeBody ∈
      (get (mkEnv okResp) none "ListServices" ["namespace", "default"]).1 := by
  refine ⟨by decide, by decide, by decide⟩

/-- C10: a call through `post` (hence a nil, discarded destination) still
JSON-parses a non-empty 200 body: it fails with the decode error when the
body does not unmarshal, and succeeds when the body is empty or
unmarshals (into the nil destination); `postWithBody` behaves the same
with a supplied body. -/
theorem post_discarded_dest_still_decodes (env : ClientEnv α β) (route : String)
    (qp : List String) (u : String) (r : Response)
    (hu : env.makeURL route qp = .ok u)
    (hreq : env.newRequestErr "POST" u = none) (hst : r.statusCode = 200)
    (hre : r.readErr = none) :
    (∀ e, env.transport (postReq u "") = .ok r → r.body ≠ "" →
      env.unmarshal r.body none = .error e →
      post env route qp
        = ([.tokenSet, .send (postReq u ""), .decodeAttempt r.body, .closeBody],
           (none : Option α),
           some (.wrap "decoding response from server" (.base e)))) ∧
    (env.transport (postReq u "") = .ok r → r.body = "" →
      post env route qp
        = ([.tokenSet, .send (postReq u ""), .closeBody], (none : Option α), none)) ∧
    (∀ d, env.transport (postReq u "") = .ok r → r.body ≠ "" →
      env.unmarshal r.body none = .ok d →
      post env route qp
        = ([.tokenSet, .send (postReq u ""), .decodeAttempt r.body, .closeBody],
           d, none)) ∧
    (∀ (bdy : Option β) bb e, marshalBody env bdy = .ok bb →
      env.transport (postReq u bb) = .ok r → r.body ≠ "" →
      env.unmarshal r.body none = .error e →
      postWithBody env route bdy qp
        = ([.tokenSet, .send (postReq u bb), .decodeAttempt r.body, .closeBody],
           (none : Option α),
           some (.wrap "decoding response from server" (.base e)))) := by
  refine ⟨?_, ?_, ?_, ?_⟩
  · intro e ht hb hun
    exact postWithResp_decode_err env none route none qp u "" e r
      hu rfl hreq ht hst hre hb hun
  · intro ht hb
    exact postWithResp_200_empty env none route none qp u "" r
      hu rfl hreq ht hst hre hb
  · intro d ht hb hun
    exact postWithResp_200_decode_ok env none route none qp u "" r d
      hu rfl hreq ht hst hre hb hun
  · intro bdy bb e hmb ht hb hun
    exact postWithResp_decode_err env none route bdy qp u bb e r
      hu hmb hreq ht hst hre hb hun

theorem post_discarded_dest_still_decodes_witness :
    (post (mkEnv oopsResp) "Automate" ["service", "a"]
      = ([.tokenSet, .send (postReq "http://cloud.example/api/flux/Automate" ""),
          .decodeAttempt "oops", .closeBody], (none : Option Nat),
         some (.wrap "decoding response from server" (.base "invalid character")))) ∧
    (post (mkEnv emptyResp) "Automate" ["service", "a"]
      = ([.tokenSet, .send (postReq "http://cloud.example/api/flux/Automate" ""),
          .closeBody], (none : Option Nat), none)) ∧
    (post (mkEnv okResp) "Automate" ["service", "a"]
      = ([.tokenSet, .send (postReq "http://cloud.example/api/flux/Automate" ""),
          .decodeAttempt "[]", .closeBody], some 42, none)) :=
  ⟨(post_discarded_dest_still_decodes (mkEnv oopsResp) "Automate" ["service", "a"]
      "http://cloud.example/api/flux/Automate" oopsResp rfl rfl rfl rfl).1
      "invalid character" rfl (by decide) rfl,
   (post_discarded_dest_still_decodes (mkEnv emptyResp) "Automate" ["service", "a"]
      "http://cloud.example/api/flux/Automate" emptyResp rfl rfl rfl rfl).2.1
      rfl rfl,
   (post_discarded_dest_still_decodes (mkEnv okResp) "Automate" ["service", "a"]
      "http://cloud.example/api/flux/Automate" okResp rfl rfl rfl rfl).2.2.1
      (some 42) rfl (by decide) rfl⟩

end HelmOperator
